import Mathlib

/-!
Verification of the etl-mini-pipeline repository.

The embedding below follows the two source files:
  * `src/transform/transform_transactions.py` — the Pandera schema (lines
    64-74) and the validate/partition control flow in `main` (lines 77-107);
  * `src/generate/generate_transactions.py` — the synthetic generator.

A raw batch is a CSV file: every cell is text, and the schema's `coerce`
policy turns cells into typed values before the attached checks run.  We
therefore model a record as its nine raw cell strings, and each column
check as a Boolean function on the cell text that combines the coercion
step with the checks attached to that column (a coercion failure and a
check failure both add that row's index to the failure-case list, so the
combined Boolean decides the row's fate exactly as the code does).
-/

/-- One raw record: the nine cells of one CSV row, in the fixed column
order of the pipeline. -/
structure Row where
  transaction_id : String
  user_id : String
  timestamp : String
  amount : String
  currency : String
  payment_method : String
  country : String
  device : String
  is_chargeback : String
deriving DecidableEq

/-- An in-memory batch as read by `pd.read_csv`: the header (column names)
and the rows.  Checks only ever read the cells of columns that are present
in `cols`; a schema column that is absent from `cols` is a column-level
violation, handled at batch level. -/
structure Frame where
  cols : List String
  rows : List Row
deriving DecidableEq

/-- The schema's column names, in declaration order
(`transform_transactions.py` lines 64-74). -/
def schemaCols : List String :=
  ["transaction_id", "user_id", "timestamp", "amount", "currency",
   "payment_method", "country", "device", "is_chargeback"]

/-- Decimal digit characters of a natural number, most significant first;
the first argument is fuel (structural recursion so that proofs can
evaluate it).  `natDecAux n n` is the digit list of `n` for `n > 0`. -/
def natDecAux : Nat → Nat → List Char
  | 0, _ => []
  | fuel + 1, n =>
      if n = 0 then [] else natDecAux fuel (n / 10) ++ [Nat.digitChar (n % 10)]

/-- Decimal representation of a natural number, as Python's `str`/`format`
produce it (`0` prints as `"0"`). -/
def natDecL (n : Nat) : List Char :=
  if n = 0 then ['0'] else natDecAux n n

/-- Left-pad a character list with `'0'` up to width `w`
(no-op when the list is already at least that long). -/
def padZeros (w : Nat) (l : List Char) : List Char :=
  List.replicate (w - l.length) '0' ++ l

/-- Python's `f"{i:0{w}d}"`: zero-pad the decimal form of `i` to total
width `w`; for a negative number the minus sign counts towards the width
(`f"{-5:06d} == "-00005"`). -/
def pythonZeroPad (w : Nat) (i : Int) : String :=
  if i < 0 then String.mk ('-' :: padZeros (w - 1) (natDecL i.natAbs))
  else String.mk (padZeros w (natDecL i.natAbs))

/-- `generate_transaction_id` from `generate_transactions.py` lines 32-34,
with the default arguments `prefix="txn"`, `width=6` inlined (the program
only ever calls it with the defaults): `f"txn_{i:06d}"`. -/
def generate_transaction_id (i : Int) : String :=
  "txn_" ++ pythonZeroPad 6 i

/-- The regex `^txn_\d{6}$` attached to `transaction_id`
(schema line 65). -/
def matchesTxnId (s : String) : Bool :=
  match s.data with
  | 't' :: 'x' :: 'n' :: '_' :: rest => rest.length == 6 && rest.all (·.isDigit)
  | _ => false

/-- The regex `^u_\d{4}$` attached to `user_id` (schema line 66). -/
def matchesUserId (s : String) : Bool :=
  match s.data with
  | 'u' :: '_' :: rest => rest.length == 4 && rest.all (·.isDigit)
  | _ => false

/-- Value of a two-character decimal field, e.g. a month or an hour. -/
def twoVal (a b : Char) : Nat := 10 * (a.toNat - 48) + (b.toNat - 48)

/-- Month and day ranges for the datetime coercion. -/
def monthDayOk (m1 m2 d1 d2 : Char) : Bool :=
  decide (1 ≤ twoVal m1 m2 ∧ twoVal m1 m2 ≤ 12 ∧
          1 ≤ twoVal d1 d2 ∧ twoVal d1 d2 ≤ 31)

/-- Hour, minute and second ranges for the datetime coercion. -/
def timePartOk (h1 h2 mi1 mi2 s1 s2 : Char) : Bool :=
  decide (twoVal h1 h2 ≤ 23 ∧ twoVal mi1 mi2 ≤ 59 ∧ twoVal s1 s2 ≤ 59)

/-- The `DateTime` coercion of the `timestamp` column (schema line 67):
the cell must parse as a date-time.  Modelled for the shapes the pipeline
produces and consumes, `YYYY-MM-DD` optionally followed by a `T` or space
separated `HH:MM:SS` time, with in-range month/day/hour/minute/second. -/
def timestampOk (s : String) : Bool :=
  match s.data with
  | [y1, y2, y3, y4, '-', m1, m2, '-', d1, d2] =>
      [y1, y2, y3, y4, m1, m2, d1, d2].all (·.isDigit) && monthDayOk m1 m2 d1 d2
  | [y1, y2, y3, y4, '-', m1, m2, '-', d1, d2, sep,
     h1, h2, ':', mi1, mi2, ':', s1, s2] =>
      [y1, y2, y3, y4, m1, m2, d1, d2, h1, h2, mi1, mi2, s1, s2].all (·.isDigit)
        && (sep == 'T' || sep == ' ') && monthDayOk m1 m2 d1 d2
        && timePartOk h1 h2 mi1 mi2 s1 s2
  | _ => false

/-- Well-formed unsigned decimal literal (digits, optionally a dot and
more digits, at least one digit overall) — the `Float` coercion of the
`amount` column for non-negative cells. -/
def decimalShapeOk (l : List Char) : Bool :=
  match l.dropWhile (·.isDigit) with
  | [] => !l.isEmpty
  | '.' :: fp => (!(l.takeWhile (·.isDigit)).isEmpty || !fp.isEmpty)
                   && fp.all (·.isDigit)
  | _ => false

/-- A well-formed unsigned decimal is strictly positive iff some digit is
non-zero. -/
def decimalPositive (l : List Char) : Bool :=
  l.any (fun c => c.isDigit && !(c == '0'))

/-- The `amount` column (schema line 68): `Float` coercion followed by
`Check.gt(0)`.  A cell with a leading minus sign either coerces to a
non-positive float or fails to coerce; in both cases the row is invalid,
so the combined check is `false` for it, exactly as for any other cell
that fails coercion or the positivity check. -/
def amountOk (s : String) : Bool :=
  match s.data with
  | '-' :: _ => false
  | l => decimalShapeOk l && decimalPositive l

/-- The `currency` column (schema line 69): membership check. -/
def currencyOk (s : String) : Bool := ["USD", "EUR", "HUF"].contains s

/-- The `payment_method` column (schema line 70): `Check.isin(
["credit_card", "paypal", "debit_card", "bank_transfer", "crypto"])` —
note that the source's allowed set does include `"crypto"`. -/
def paymentMethodOk (s : String) : Bool :=
  ["credit_card", "paypal", "debit_card", "bank_transfer", "crypto"].contains s

/-- The `country` column (schema line 71): `Check.str_length(2,2)` and
`Check.str_matches(r"^[A-Z]{2}$")`. -/
def matchesCountry (s : String) : Bool :=
  s.data.length == 2 && s.data.all (fun c => 'A' ≤ c && c ≤ 'Z')

/-- The `device` column (schema line 72): membership check. -/
def deviceOk (s : String) : Bool := ["mobile", "desktop", "tablet"].contains s

/-- All decimal digits. -/
def allDigits (l : List Char) : Bool := l.all (·.isDigit)

/-- Digit list to number, most significant first. -/
def digitsToNat (l : List Char) : Nat :=
  l.foldl (fun a c => 10 * a + (c.toNat - 48)) 0

/-- The `is_chargeback` column (schema line 73): `Int` coercion followed
by `Check.isin([0, 1])`.  A negative cell is never 0 or 1, so the combined
check is `false` for it. -/
def chargebackOk (s : String) : Bool :=
  match s.data with
  | '-' :: _ => false
  | l => !l.isEmpty && allDigits l && (digitsToNat l == 0 || digitsToNat l == 1)

/-- Per-row validation: the conjunction of the nine per-column
coercion-plus-check predicates, in schema declaration order.  This is the
row-level part of `schema.validate(df_raw, lazy=True)`; the batch-wide
`unique=True` flag on `transaction_id` is handled in `isBadRow`. -/
def rowValid (r : Row) : Bool :=
  matchesTxnId r.transaction_id && matchesUserId r.user_id
    && timestampOk r.timestamp && amountOk r.amount && currencyOk r.currency
    && paymentMethodOk r.payment_method && matchesCountry r.country
    && deviceOk r.device && chargebackOk r.is_chargeback

/-- The `transaction_id` column of a batch, in row order. -/
def batchIds (rows : List Row) : List String := rows.map Row.transaction_id

/-- A row contributes at least one failure case iff it fails a per-row
check, or its `transaction_id` occurs more than once in the batch
(`unique=True` with Pandera's default `report_duplicates="all"` reports
every occurrence of a duplicated value, the first one included). -/
def isBadRow (ids : List String) (r : Row) : Bool :=
  !rowValid r || decide (1 < ids.count r.transaction_id)

/-- Column-level failure cases of the `strict=True` policy: one case per
batch column absent from the schema (Pandera's `column_in_schema`) and one
per schema column absent from the batch (`column_in_dataframe`).  These
failure cases carry no row index (Pandera reports `index = None` for
them). -/
def colFailureCases (cols : List String) : List String :=
  cols.filter (fun c => !schemaCols.contains c)
    ++ schemaCols.filter (fun c => !cols.contains c)

/-- The rows the code drops into quarantine: `df_raw.loc[sorted(set(
failures["index"]))]`.  A row's index is in the failure-case list iff
`isBadRow` holds of it (a content-determined predicate), and selecting the
ascending bad indices from `df_raw` is exactly filtering the rows by that
predicate in original order, so `df_bad` is this filter. -/
def badOf (f : Frame) : List Row :=
  f.rows.filter (fun r => isBadRow (batchIds f.rows) r)

/-- The rows the code keeps: `df_raw.drop(index=bad_indices)`, i.e. the
complementary filter, in original order.  (On the no-exception path the
code instead keeps `df_validated`, whose rows are the same rows — the
filter below is then the whole batch and the quarantine filter is
empty.) -/
def goodOf (f : Frame) : List Row :=
  f.rows.filter (fun r => !isBadRow (batchIds f.rows) r)

/-- The validate-and-partition step of `main` (`transform_transactions.py`
lines 77-92).  When every failure case carries a row index, the code
splits the batch into `(df_good, df_bad)`.  When a column-level failure
case is present its `None` index reaches `sorted(set(...))` and
`df_raw.loc[...]`, and the run aborts with an uncaught `TypeError` or
`KeyError`; modelled as the `error` branch. -/
def runPartition (f : Frame) : Except String (List Row × List Row) :=
  if (colFailureCases f.cols).isEmpty then .ok (goodOf f, badOf f)
  else .error "uncaught TypeError or KeyError: failure case with null index"

/-- The summary block of `main` (lines 95-107): counts always, ratio lines
only under the `if total_records > 0` guard — for an empty batch the two
ratio fields are the sentinel `none` and no division is performed. -/
structure Report where
  total : Nat
  validCount : Nat
  validFrac : Option Rat
  invalidCount : Nat
  invalidFrac : Option Rat
deriving DecidableEq

/-- Build the summary report from the three counts, dividing only when
`total` is positive, as the code's guard does. -/
def makeReport (total good bad : Nat) : Report :=
  { total := total
    validCount := good
    validFrac := if 0 < total then some ((good : Rat) / (total : Rat)) else none
    invalidCount := bad
    invalidFrac := if 0 < total then some ((bad : Rat) / (total : Rat)) else none }

/-!
The synthetic generator, `src/generate/generate_transactions.py`.

The program draws from two pseudo-random streams, the module-global
`random` state and the `Faker` instance, both seeded with the constant
`SEED = 42` when the module loads (lines 9-15).  The Mersenne-Twister
internals of those third-party libraries are outside the repository;
they are modelled here as a deterministic state machine (a linear
congruential step) — every claim about the generator depends only on
the transition being a function of the state, not on which function. -/

/-- State of one pseudo-random stream (library abstraction: a single
natural number evolved by a fixed congruential step). -/
structure RngState where
  val : Nat
deriving DecidableEq

/-- One deterministic draw: a number below `2^32` and the next state. -/
def rngNext (s : RngState) : Nat × RngState :=
  let v := (1664525 * s.val + 1013904223) % 4294967296
  (v, ⟨v⟩)

/-- `random.choice` over a list of strings. -/
def rngChoice (l : List String) (s : RngState) : String × RngState :=
  let (r, s') := rngNext s
  (l.getD (r % l.length) "", s')

/-- The two streams the generator module owns: the global `random` state
and the `fake` instance's state. -/
structure GenState where
  rand : RngState
  faker : RngState
deriving DecidableEq

/-- `SEED = 42` (line 10). -/
def SEED : Nat := 42

/-- The module-load seeding, `random.seed(SEED)` and
`fake.seed_instance(SEED)` (lines 12-15): both streams are reset to the
seed-determined state, whatever their ambient state was. -/
def moduleSeed (_ambient : GenState) : GenState := ⟨⟨SEED⟩, ⟨SEED⟩⟩

/-- `CURRENCIES` (line 20). -/
def CURRENCIES : List String := ["USD", "EUR", "HUF"]

/-- `PAYMENT_METHODS` (line 21) — note: no `"crypto"` here. -/
def PAYMENT_METHODS : List String :=
  ["credit_card", "debit_card", "paypal", "bank_transfer"]

/-- `DEVICES` (line 22). -/
def DEVICES : List String := ["mobile", "desktop", "tablet"]

/-- `N_USERS = 300` (line 28). -/
def N_USERS : Nat := 300

/-- The user pool `[f"u_{i:04d}" for i in range(1, N_USERS + 1)]`
(line 113). -/
def userPool : List String :=
  (List.range N_USERS).map (fun k => "u_" ++ pythonZeroPad 4 (Int.ofNat (k + 1)))

/-- A generated record.  `timestamp` is modelled as seconds since the
epoch and `amount` as cents (abstractions of the library's datetime and
float values; only which draw produced them matters for the claims). -/
structure GenRecord where
  transaction_id : String
  user_id : String
  timestamp : Nat
  amount : Nat
  currency : String
  payment_method : String
  country : String
  device : String
  is_chargeback : Nat
deriving DecidableEq

/-- `generate_timestamp(today)` (lines 42-50): a draw from the Faker
stream mapped into the window from `today - 365` days at midnight to
`today` at 23:59:59; `today` is modelled as an epoch day number. -/
def generate_timestamp (today : Nat) (fk : RngState) : Nat × RngState :=
  let start := (today - 365) * 86400
  let stop := today * 86400 + 86399
  let (r, fk') := rngNext fk
  (start + r % (stop - start + 1), fk')

/-- `choose_user_id` (lines 36-40): `random.choice(user_pool)`. -/
def choose_user_id (pool : List String) (s : RngState) : String × RngState :=
  rngChoice pool s

/-- `generate_amount` (lines 52-55): a uniform draw in [1.00, 1000.00],
modelled in cents. -/
def generate_amount (s : RngState) : Nat × RngState :=
  let (r, s') := rngNext s
  (100 + r % 99901, s')

/-- `generate_currency` (lines 57-59). -/
def generate_currency (s : RngState) : String × RngState :=
  rngChoice CURRENCIES s

/-- `generate_payment_method` (lines 61-62). -/
def generate_payment_method (s : RngState) : String × RngState :=
  rngChoice PAYMENT_METHODS s

/-- `fake.country_code()` (lines 64-65): a draw from the Faker stream over
its fixed code list (abbreviated here; only determinism matters). -/
def generate_country (fk : RngState) : String × RngState :=
  rngChoice ["US", "DE", "HU", "FR", "GB", "JP"] fk

/-- `generate_device` (lines 67-68). -/
def generate_device (s : RngState) : String × RngState :=
  rngChoice DEVICES s

/-- `generate_is_chargeback` (lines 70-71):
`int(random.random() < 0.05)`, the 5% threshold modelled on a draw
modulo 100. -/
def generate_is_chargeback (s : RngState) : Nat × RngState :=
  let (r, s') := rngNext s
  (if r % 100 < 5 then 1 else 0, s')

/-- One iteration of the generation loop (lines 116-129): `ts` is drawn
first, then the record's fields are produced in dict order, each helper
consuming the stream the source uses (`random` or the Faker instance). -/
def genOne (i : Nat) (today : Nat) (g : GenState) : GenRecord × GenState :=
  let (ts, fk1) := generate_timestamp today g.faker
  let (uid, r1) := choose_user_id userPool g.rand
  let (amt, r2) := generate_amount r1
  let (cur, r3) := generate_currency r2
  let (pm, r4) := generate_payment_method r3
  let (cty, fk2) := generate_country fk1
  let (dev, r5) := generate_device r4
  let (cb, r6) := generate_is_chargeback r5
  ({ transaction_id := generate_transaction_id (Int.ofNat i)
     user_id := uid
     timestamp := ts
     amount := amt
     currency := cur
     payment_method := pm
     country := cty
     device := dev
     is_chargeback := cb }, ⟨r6, fk2⟩)

/-- The loop `for i in range(1, n_records + 1)`, threading the two
streams; the first argument counts the remaining iterations. -/
def genLoop : Nat → Nat → Nat → GenState → List GenRecord
  | 0, _, _, _ => []
  | k + 1, i, today, g =>
      let (tr, g') := genOne i today g
      tr :: genLoop k (i + 1) today g'

/-- The batch built by `main` (lines 116-129) from a given state. -/
def generateBatch (n today : Nat) (g : GenState) : List GenRecord :=
  genLoop n 1 today g

/-- A full program run of the generator with `count = n` and the given
run date: module load seeds both streams, then the loop produces the
batch.  `ambient` is whatever pseudo-random state existed before the
module's seeding. -/
def runGenerate (n today : Nat) (ambient : GenState) : List GenRecord :=
  generateBatch n today (moduleSeed ambient)

/-!
Concrete records and frames used by witnesses and counterexamples. -/

/-- A record every schema check accepts. -/
def okRow : Row :=
  { transaction_id := "txn_000001"
    user_id := "u_0001"
    timestamp := "2025-01-01T10:00:00"
    amount := "10.50"
    currency := "USD"
    payment_method := "credit_card"
    country := "US"
    device := "mobile"
    is_chargeback := "0" }

/-- A record whose only unusual field is `payment_method = "crypto"`. -/
def cryptoRow : Row :=
  { okRow with transaction_id := "txn_000002", payment_method := "crypto" }

/-- The single-record batch holding `cryptoRow`, with the nine schema
columns. -/
def cryptoFrame : Frame := ⟨schemaCols, [cryptoRow]⟩

/-- A second record sharing `okRow`'s `transaction_id`, itself passing
every per-row check. -/
def dupRow : Row := { okRow with device := "desktop" }

/-- A batch whose two records collide on `transaction_id`. -/
def dupFrame : Frame := ⟨schemaCols, [okRow, dupRow]⟩

/-- A record with a negative `amount` — invalid on its own. -/
def negAmountRow : Row :=
  { okRow with transaction_id := "txn_000003", amount := "-5.00" }

/-- A batch in which every record is invalid. -/
def allBadFrame : Frame := ⟨schemaCols, [negAmountRow]⟩

/-- A mixed batch: one valid record, one invalid record. -/
def mixedFrame : Frame := ⟨schemaCols, [okRow, negAmountRow]⟩

/-- The eight per-column checks other than `payment_method`, in schema
order — "all other fields valid". -/
def otherFieldsValid (r : Row) : Bool :=
  matchesTxnId r.transaction_id && matchesUserId r.user_id
    && timestampOk r.timestamp && amountOk r.amount && currencyOk r.currency
    && matchesCountry r.country && deviceOk r.device && chargebackOk r.is_chargeback

/-- A batch whose header carries the nine schema columns plus an extra
column, with one row every per-row check accepts. -/
def extraColFrame : Frame := ⟨schemaCols ++ ["note"], [okRow]⟩

/-- A batch whose header is missing the schema column `device`. -/
def missingColFrame : Frame :=
  ⟨["transaction_id", "user_id", "timestamp", "amount", "currency",
    "payment_method", "country", "is_chargeback"], [okRow]⟩

example : rowValid okRow = true := by decide
example : rowValid cryptoRow = true := by decide
example : rowValid dupRow = true := by decide
example : rowValid negAmountRow = false := by decide
example : runPartition cryptoFrame = .ok ([cryptoRow], []) := by rfl
example : runPartition dupFrame = .ok ([], [okRow, dupRow]) := by rfl
example : runPartition mixedFrame = .ok ([okRow], [negAmountRow]) := by rfl

/-!
Shared helper lemmas. -/

/-- The nine schema columns themselves raise no column-level failure
case. -/
lemma colFailureCases_schemaCols : colFailureCases schemaCols = [] := by decide

/-- On a batch with exactly the schema columns, the code takes the
row-splitting path and returns the two filters. -/
lemma runPartition_eq (f : Frame) (h : f.cols = schemaCols) :
    runPartition f = .ok (goodOf f, badOf f) := by
  simp [runPartition, h, colFailureCases_schemaCols]

/-- Splitting a list by a predicate preserves the multiplicity of every
element. -/
lemma count_split (p : Row → Bool) (l : List Row) (a : Row) :
    (l.filter (fun r => !p r)).count a + (l.filter p).count a = l.count a := by
  induction l with
  | nil => simp
  | cons b t ih =>
      by_cases hb : p b <;>
        simp [List.filter_cons, hb, List.count_cons] <;> omega

/-- `isBadRow` only looks at the multiset of `transaction_id` values. -/
lemma isBadRow_congr {ids ids' : List String}
    (h : ∀ s, ids.count s = ids'.count s) (r : Row) :
    isBadRow ids r = isBadRow ids' r := by
  simp [isBadRow, h r.transaction_id]

/-- C2: in every batch with the schema columns, any record whose
`transaction_id` value occurs more than once in the batch is classified
invalid and placed in the quarantine output (and not in the curated one),
regardless of its other fields. -/
theorem duplicate_ids_quarantined (f : Frame) (h : f.cols = schemaCols)
    (r : Row) (hr : r ∈ f.rows)
    (hdup : 1 < (batchIds f.rows).count r.transaction_id) :
    runPartition f = .ok (goodOf f, badOf f) ∧ r ∈ badOf f ∧ r ∉ goodOf f := by
  refine ⟨runPartition_eq f h, ?_, ?_⟩
  · rw [badOf, List.mem_filter]
    exact ⟨hr, by simp [isBadRow, hdup]⟩
  · rw [goodOf, List.mem_filter]
    rintro ⟨-, hbad⟩
    simp [isBadRow, hdup] at hbad

/-- Witness for C2: in the concrete two-record batch `dupFrame`, whose
records share `"txn_000001"` and are otherwise valid, both hypotheses
hold and the first record lands in quarantine. -/
theorem duplicate_ids_quarantined_witness :
    dupFrame.cols = schemaCols ∧ okRow ∈ dupFrame.rows ∧
    1 < (batchIds dupFrame.rows).count okRow.transaction_id ∧
    (runPartition dupFrame = .ok (goodOf dupFrame, badOf dupFrame) ∧
      okRow ∈ badOf dupFrame ∧ okRow ∉ goodOf dupFrame) :=
  ⟨rfl, by decide, by decide,
    duplicate_ids_quarantined dupFrame rfl okRow (by decide) (by decide)⟩

/-- C3: for every batch with the schema columns, the curated and
quarantine outputs partition the batch: every row keeps its multiplicity
across the two outputs, and no row is in both. -/
theorem partition_complete (f : Frame) (h : f.cols = schemaCols) :
    runPartition f = .ok (goodOf f, badOf f) ∧
    (∀ r : Row, (goodOf f).count r + (badOf f).count r = f.rows.count r) ∧
    (∀ r : Row, ¬(r ∈ goodOf f ∧ r ∈ badOf f)) := by
  refine ⟨runPartition_eq f h, ?_, ?_⟩
  · intro r
    exact count_split (fun r => isBadRow (batchIds f.rows) r) f.rows r
  · rintro r ⟨hg, hb⟩
    rw [goodOf, List.mem_filter] at hg
    rw [badOf, List.mem_filter] at hb
    rw [hb.2] at hg
    exact absurd hg.2 (by simp)

/-- Witness for C3 at the concrete mixed batch. -/
theorem partition_complete_witness :
    mixedFrame.cols = schemaCols ∧
    (runPartition mixedFrame = .ok (goodOf mixedFrame, badOf mixedFrame) ∧
     (∀ r : Row, (goodOf mixedFrame).count r + (badOf mixedFrame).count r
        = mixedFrame.rows.count r) ∧
     (∀ r : Row, ¬(r ∈ goodOf mixedFrame ∧ r ∈ badOf mixedFrame))) :=
  ⟨rfl, partition_complete mixedFrame rfl⟩

/-- C4: for every batch with the schema columns, the curated output and
the quarantine output are sublists of the batch's row list — each
preserves the relative order the rows had in the input. -/
theorem partition_order_preserved (f : Frame) (h : f.cols = schemaCols) :
    runPartition f = .ok (goodOf f, badOf f) ∧
    (goodOf f).Sublist f.rows ∧ (badOf f).Sublist f.rows :=
  ⟨runPartition_eq f h, List.filter_sublist f.rows, List.filter_sublist f.rows⟩

/-- Witness for C4 at the concrete mixed batch. -/
theorem partition_order_preserved_witness :
    mixedFrame.cols = schemaCols ∧
    (runPartition mixedFrame = .ok (goodOf mixedFrame, badOf mixedFrame) ∧
     (goodOf mixedFrame).Sublist mixedFrame.rows ∧
     (badOf mixedFrame).Sublist mixedFrame.rows) :=
  ⟨rfl, partition_order_preserved mixedFrame rfl⟩

/-- C7: per-record validation failures never abort the run: on every
batch with the schema columns the code returns the two outputs (no error
branch), and when 100% of the records are invalid the curated output is
empty and the whole batch is quarantined. -/
theorem invalid_records_never_abort (f : Frame) (h : f.cols = schemaCols) :
    runPartition f = .ok (goodOf f, badOf f) ∧
    ((∀ r ∈ f.rows, rowValid r = false) →
      goodOf f = [] ∧ badOf f = f.rows) := by
  refine ⟨runPartition_eq f h, fun hall => ⟨?_, ?_⟩⟩
  · rw [goodOf, List.filter_eq_nil_iff]
    intro r hr
    simp [isBadRow, hall r hr]
  · rw [badOf, List.filter_eq_self]
    intro r hr
    simp [isBadRow, hall r hr]

/-- Witness for C7: the concrete all-invalid batch runs to completion
with an empty curated output. -/
theorem invalid_records_never_abort_witness :
    allBadFrame.cols = schemaCols ∧
    (∀ r ∈ allBadFrame.rows, rowValid r = false) ∧
    (goodOf allBadFrame = [] ∧ badOf allBadFrame = allBadFrame.rows) :=
  ⟨rfl, by decide, (invalid_records_never_abort allBadFrame rfl).2 (by decide)⟩

/-- C1, counterexample: the schema's allowed set for `payment_method`
does contain `"crypto"`, so the concrete record `cryptoRow` — valid in
every other field — is classified valid and placed in the curated output
with an empty quarantine, contradicting the claim that it is invalid and
quarantined. -/
theorem crypto_record_counterexample :
    cryptoRow.payment_method = "crypto" ∧ paymentMethodOk "crypto" = true ∧
    otherFieldsValid cryptoRow = true ∧
    runPartition cryptoFrame = .ok ([cryptoRow], []) ∧
    badOf cryptoFrame = [] :=
  ⟨rfl, by decide, by decide, by rfl, by rfl⟩

/-- C1 as amended: a record with `payment_method = "crypto"`, all other
fields valid and a non-duplicated `transaction_id` is classified valid
and placed in the curated output, because the code's allowed set is
{credit_card, paypal, debit_card, bank_transfer, crypto}. -/
theorem crypto_record_amended (f : Frame) (r : Row) (h : f.cols = schemaCols)
    (hr : r ∈ f.rows) (hpm : r.payment_method = "crypto")
    (hother : otherFieldsValid r = true)
    (huniq : (batchIds f.rows).count r.transaction_id ≤ 1) :
    runPartition f = .ok (goodOf f, badOf f) ∧ r ∈ goodOf f ∧ r ∉ badOf f := by
  have hval : rowValid r = true := by
    have hcomm : rowValid r
        = (otherFieldsValid r && paymentMethodOk r.payment_method) := by
      simp only [rowValid, otherFieldsValid]
      ac_rfl
    rw [hcomm, hother, hpm]
    decide
  have hnotdup : ¬(1 < (batchIds f.rows).count r.transaction_id) := by omega
  have hbad : isBadRow (batchIds f.rows) r = false := by
    simp [isBadRow, hval, hnotdup]
  refine ⟨runPartition_eq f h, ?_, ?_⟩
  · rw [goodOf, List.mem_filter]
    exact ⟨hr, by simp [hbad]⟩
  · rw [badOf, List.mem_filter]
    rintro ⟨-, hb⟩
    rw [hbad] at hb
    cases hb

/-- Witness for the amended C1 at the concrete crypto batch. -/
theorem crypto_record_amended_witness :
    cryptoFrame.cols = schemaCols ∧ cryptoRow ∈ cryptoFrame.rows ∧
    cryptoRow.payment_method = "crypto" ∧ otherFieldsValid cryptoRow = true ∧
    (batchIds cryptoFrame.rows).count cryptoRow.transaction_id ≤ 1 ∧
    (runPartition cryptoFrame = .ok (goodOf cryptoFrame, badOf cryptoFrame) ∧
      cryptoRow ∈ goodOf cryptoFrame ∧ cryptoRow ∉ badOf cryptoFrame) :=
  ⟨rfl, by decide, rfl, by decide, by decide,
    crypto_record_amended cryptoFrame cryptoRow rfl (by decide) rfl
      (by decide) (by decide)⟩

/-- C5: re-running the partition on the concatenation of a previous run's
curated and quarantine outputs reproduces exactly that classification:
the same rows, in the same order, on the same sides. -/
theorem partition_idempotent (f : Frame) (h : f.cols = schemaCols) :
    runPartition f = .ok (goodOf f, badOf f) ∧
    runPartition ⟨f.cols, goodOf f ++ badOf f⟩ = .ok (goodOf f, badOf f) := by
  have hperm : (goodOf f ++ badOf f).Perm f.rows := by
    simpa [goodOf, badOf, Bool.not_not] using
      List.filter_append_perm (fun r => !isBadRow (batchIds f.rows) r) f.rows
  have hcount : ∀ s, (batchIds (goodOf f ++ badOf f)).count s
      = (batchIds f.rows).count s :=
    fun s => (hperm.map Row.transaction_id).count_eq s
  have hcong : ∀ r, isBadRow (batchIds (goodOf f ++ badOf f)) r
      = isBadRow (batchIds f.rows) r :=
    fun r => isBadRow_congr hcount r
  have hkeep : (goodOf f).filter (fun r => !isBadRow (batchIds f.rows) r)
      = goodOf f := by
    rw [List.filter_eq_self]
    intro a ha
    exact (List.mem_filter.mp ha).2
  have hdropg : (goodOf f).filter (fun r => isBadRow (batchIds f.rows) r)
      = [] := by
    rw [List.filter_eq_nil_iff]
    intro a ha
    have := (List.mem_filter.mp ha).2
    simp only [Bool.not_eq_true'] at this
    simp [this]
  have hkeepb : (badOf f).filter (fun r => isBadRow (batchIds f.rows) r)
      = badOf f := by
    rw [List.filter_eq_self]
    intro a ha
    exact (List.mem_filter.mp ha).2
  have hdropb : (badOf f).filter (fun r => !isBadRow (batchIds f.rows) r)
      = [] := by
    rw [List.filter_eq_nil_iff]
    intro a ha
    simp [(List.mem_filter.mp ha).2]
  have hgood : goodOf ⟨f.cols, goodOf f ++ badOf f⟩ = goodOf f := by
    show (goodOf f ++ badOf f).filter
        (fun r => !isBadRow (batchIds (goodOf f ++ badOf f)) r) = goodOf f
    rw [List.filter_congr (fun x _ => by rw [hcong x]),
      List.filter_append, hkeep, hdropb, List.append_nil]
  have hbad : badOf ⟨f.cols, goodOf f ++ badOf f⟩ = badOf f := by
    show (goodOf f ++ badOf f).filter
        (fun r => isBadRow (batchIds (goodOf f ++ badOf f)) r) = badOf f
    rw [List.filter_congr (fun x _ => by rw [hcong x]),
      List.filter_append, hdropg, hkeepb, List.nil_append]
  refine ⟨runPartition_eq f h, ?_⟩
  rw [runPartition_eq ⟨f.cols, goodOf f ++ badOf f⟩ h, hgood, hbad]

/-- Witness for C5 at the concrete mixed batch. -/
theorem partition_idempotent_witness :
    mixedFrame.cols = schemaCols ∧
    (runPartition mixedFrame = .ok (goodOf mixedFrame, badOf mixedFrame) ∧
     runPartition ⟨mixedFrame.cols, goodOf mixedFrame ++ badOf mixedFrame⟩
       = .ok (goodOf mixedFrame, badOf mixedFrame)) :=
  ⟨rfl, partition_idempotent mixedFrame rfl⟩

/-- C6, code behavior at the failing inputs: under the strict policy an
extra batch column, or a missing schema column, is indeed recorded as a
column-level failure case attributed to that column — but that failure
case carries no row index, and the quarantine branch then aborts the run
with an uncaught exception instead of routing records to quarantine. -/
theorem strict_mismatch_aborts :
    colFailureCases extraColFrame.cols = ["note"] ∧
    runPartition extraColFrame
      = .error "uncaught TypeError or KeyError: failure case with null index" ∧
    colFailureCases missingColFrame.cols = ["device"] ∧
    runPartition missingColFrame
      = .error "uncaught TypeError or KeyError: failure case with null index" :=
  ⟨by decide, by rfl, by decide, by rfl⟩

/-- C8: the empty batch takes the no-error path with both outputs empty,
and the report's two ratio fields are the sentinel `none` exactly when
the batch is empty — the division is performed only under the positive
`total` guard, never for an empty batch. -/
theorem empty_batch_report :
    runPartition ⟨schemaCols, []⟩ = .ok ([], []) ∧
    makeReport 0 0 0
      = { total := 0, validCount := 0, validFrac := none,
          invalidCount := 0, invalidFrac := none } ∧
    (∀ t g b : Nat, ((makeReport t g b).validFrac = none ↔ t = 0) ∧
                    ((makeReport t g b).invalidFrac = none ↔ t = 0)) := by
  refine ⟨by rfl, by rfl, fun t g b => ⟨?_, ?_⟩⟩ <;>
    by_cases ht : 0 < t <;> simp [makeReport, ht] <;> omega

/-- C9: the generator is deterministic in (count, date): a full program
run reseeds both pseudo-random streams from the constant `SEED` at module
load, so two runs with the same count and run date produce the same
batch whatever pseudo-random state existed before. -/
theorem generator_deterministic (n today : Nat) (s1 s2 : GenState) :
    runGenerate n today s1 = runGenerate n today s2 := rfl

/-!
Lemmas about decimal printing, for the claim on
`generate_transaction_id`. -/

/-- A digit value below ten prints as a digit character. -/
lemma digitChar_isDigit {d : Nat} (h : d < 10) :
    (Nat.digitChar d).isDigit = true := by
  interval_cases d <;> decide

/-- Every character `natDecAux` emits is a digit. -/
lemma natDecAux_all_digits : ∀ fuel n : Nat,
    (natDecAux fuel n).all (·.isDigit) = true := by
  intro fuel
  induction fuel with
  | zero => intro n; rfl
  | succ fl ih =>
      intro n
      rw [natDecAux]
      split
      · rfl
      · rw [List.all_append, ih (n / 10)]
        simp [digitChar_isDigit (Nat.mod_lt n (by norm_num))]

/-- A number below `10 ^ k` prints in at most `k` digits. -/
lemma natDecAux_length_le : ∀ fuel n k : Nat,
    n < 10 ^ k → (natDecAux fuel n).length ≤ k := by
  intro fuel
  induction fuel with
  | zero => intro n k _; simp [natDecAux]
  | succ fl ih =>
      intro n k hn
      rw [natDecAux]
      split
      · simp
      · rcases k with _ | k'
        · simp at hn
          omega
        · rw [List.length_append]
          simp only [List.length_cons, List.length_nil]
          have hdiv : n / 10 < 10 ^ k' := by
            rw [pow_succ] at hn
            omega
          have := ih (n / 10) k' hdiv
          omega

/-- A number at least `10 ^ k` prints in at least `k + 1` digits
(given enough fuel). -/
lemma natDecAux_length_ge : ∀ fuel n k : Nat,
    n ≤ fuel → 10 ^ k ≤ n → k + 1 ≤ (natDecAux fuel n).length := by
  intro fuel
  induction fuel with
  | zero =>
      intro n k hf hk
      have hpos : 0 < 10 ^ k := pow_pos (by norm_num) k
      omega
  | succ fl ih =>
      intro n k hf hk
      have hpos : 0 < 10 ^ k := pow_pos (by norm_num) k
      rw [natDecAux]
      split
      · omega
      · rw [List.length_append]
        simp only [List.length_cons, List.length_nil]
        rcases k with _ | k'
        · omega
        · have hdiv10 : 10 ^ k' ≤ n / 10 := by
            rw [pow_succ] at hk
            omega
          have hfl : n / 10 ≤ fl := by
            have : n / 10 < n := Nat.div_lt_self (by omega) (by norm_num)
            omega
          have := ih (n / 10) k' hfl hdiv10
          omega

/-- The decimal form of any natural number is all digit characters. -/
lemma natDecL_all_digits (n : Nat) : (natDecL n).all (·.isDigit) = true := by
  rw [natDecL]
  split
  · decide
  · exact natDecAux_all_digits n n

/-- A number below `10 ^ k` (with `k` positive) has decimal length at
most `k`. -/
lemma natDecL_length_le {n k : Nat} (hk : 0 < k) (h : n < 10 ^ k) :
    (natDecL n).length ≤ k := by
  rw [natDecL]
  split
  · simpa using hk
  · exact natDecAux_length_le n n k h

/-- A number at least `10 ^ k` has decimal length at least `k + 1`. -/
lemma natDecL_length_ge {n k : Nat} (h : 10 ^ k ≤ n) :
    k + 1 ≤ (natDecL n).length := by
  rw [natDecL]
  split
  · have hpos : 0 < 10 ^ k := pow_pos (by norm_num) k
    omega
  · exact natDecAux_length_ge n n k (Nat.le_refl n) h

/-- Length of a zero-padded list. -/
lemma padZeros_length (w : Nat) (l : List Char) :
    (padZeros w l).length = max w l.length := by
  simp [padZeros]
  omega

/-- Zero-padding a digit list keeps it all digits. -/
lemma padZeros_all_digits {w : Nat} {l : List Char}
    (h : l.all (·.isDigit) = true) : (padZeros w l).all (·.isDigit) = true := by
  rw [padZeros, List.all_append, h, Bool.and_true]
  rw [List.all_eq_true]
  intro c hc
  rw [List.eq_of_mem_replicate hc]
  decide

/-- Appending a suffix to the `txn_` literal, at the character level. -/
lemma txn_append_data (l : List Char) :
    ("txn_" ++ String.mk l).data = 't' :: 'x' :: 'n' :: '_' :: l := rfl

/-- The `transaction_id` pattern on a `txn_`-prefixed string checks the
suffix: six characters, all digits. -/
lemma matchesTxnId_mk (l : List Char) :
    matchesTxnId ("txn_" ++ String.mk l)
      = (l.length == 6 && l.all (·.isDigit)) := by
  simp only [matchesTxnId, txn_append_data]

/-- C10, counterexample: at `i = 0` the generator produces
`"txn_000000"`, which does match `^txn_\d{6}$` although `1 ≤ i` fails —
the claimed lower bound `1` is wrong. -/
theorem txn_id_zero_counterexample :
    generate_transaction_id 0 = "txn_000000" ∧
    matchesTxnId (generate_transaction_id 0) = true ∧ ¬((1 : Int) ≤ 0) :=
  ⟨by rfl, by rfl, by decide⟩

/-- C10 as amended: `generate_transaction_id i` matches the schema
pattern `^txn_\d{6}$` exactly for `0 ≤ i ≤ 999999`; from one million on
the zero-padded width grows past six digits (and negative inputs carry a
minus sign), so the produced id violates the `transaction_id`
constraint. -/
theorem txn_id_pattern_iff (i : Int) :
    matchesTxnId (generate_transaction_id i) = true ↔ 0 ≤ i ∧ i ≤ 999999 := by
  have h10 : (10 : Nat) ^ 6 = 1000000 := by norm_num
  by_cases hi : i < 0
  · have hrep : generate_transaction_id i
        = "txn_" ++ String.mk ('-' :: padZeros 5 (natDecL i.natAbs)) := by
      rw [generate_transaction_id, pythonZeroPad, if_pos hi]
    rw [hrep, matchesTxnId_mk]
    constructor
    · intro hm
      have hminus : ('-' : Char).isDigit = false := by decide
      simp [hminus] at hm
    · rintro ⟨h0, -⟩
      omega
  · have hrep : generate_transaction_id i
        = "txn_" ++ String.mk (padZeros 6 (natDecL i.natAbs)) := by
      rw [generate_transaction_id, pythonZeroPad, if_neg hi]
    rw [hrep, matchesTxnId_mk]
    by_cases hn : i.natAbs ≤ 999999
    · have hlen : (natDecL i.natAbs).length ≤ 6 :=
        natDecL_length_le (by norm_num) (by omega)
      have h6 : (padZeros 6 (natDecL i.natAbs)).length = 6 := by
        rw [padZeros_length]
        omega
      have hdig : (padZeros 6 (natDecL i.natAbs)).all (·.isDigit) = true :=
        padZeros_all_digits (natDecL_all_digits _)
      simp [h6, hdig]
      omega
    · have hge : 7 ≤ (natDecL i.natAbs).length :=
        natDecL_length_ge (k := 6) (by omega)
      have hne : ((padZeros 6 (natDecL i.natAbs)).length == 6) = false := by
        rw [padZeros_length]
        simp
        omega
      simp [hne]
      omega
